import Mathlib

/-!
Verification of the core simulation logic of the Centipede game
(`src/centipede_game.py`): chain fragmentation, segment locomotion and
state transitions, mushroom durability, hit handling, spawn timers and
wave scaling.  Python objects are embedded as Lean structures; float
arithmetic is embedded over `ℚ`; Euclidean-distance thresholds
`dist < r` are embedded as squared comparisons `distSq < r ^ 2`.
-/

namespace Centipede

/-! ## Chain model

`CentipedeGame.centipede_segments` is a Python list of segment objects;
for the fragmentation logic only object identity (modelled by `id`) and
the `is_head` flag matter.  Python's `in` / `.index` / `.remove` use
object identity, modelled by equality of `id`s. -/

structure Seg where
  id : Nat
  is_head : Bool
deriving DecidableEq, Repr

/-- Set a segment's head flag (models `segment.is_head = True` together
with the accompanying sprite swap, which carries no logical state). -/
def setHead (s : Seg) : Seg := { s with is_head := true }

/-- Embedding of `CentipedeGame._split_centipede_at_segment`.

Python source:
```
if hit_segment not in self.centipede_segments: return
hit_index = self.centipede_segments.index(hit_segment)
self.centipede_segments.remove(hit_segment)
if hit_index > 0:
    for i in range(hit_index):
        if i < len(self.centipede_segments):
            segment = self.centipede_segments[i]
            if i == hit_index - 1:
                segment.is_head = True ...
if self.centipede_segments:
    first_remaining = self.centipede_segments[0]
    if not first_remaining.is_head:
        first_remaining.is_head = True ...
```
The loop body acts only at `i = hit_index - 1`, and
`hit_index - 1 < len(after removal)` always holds when the segment was
present, so the loop is equivalent to one `List.modify` at
`hit_index - 1`.  Setting `is_head = True` when it is already `true` is
the identity, so the `if not first_remaining.is_head` guard is dropped.
`promoteFirst` is the final `if self.centipede_segments:` block and
`splitAtIndex` is the whole body after the index lookup. -/
def promoteFirst : List Seg → List Seg
  | [] => []
  | first :: rest => setHead first :: rest

def splitAtIndex (segs : List Seg) (hitIndex : Nat) : List Seg :=
  promoteFirst
    (if hitIndex > 0 then (segs.eraseIdx hitIndex).modify setHead (hitIndex - 1)
     else segs.eraseIdx hitIndex)

def splitCentipedeAtSegment (segs : List Seg) (hitSeg : Seg) : List Seg :=
  match segs.findIdx? (fun s => s.id == hitSeg.id) with
  | none => segs
  | some hitIndex => splitAtIndex segs hitIndex

/-- The canonical chain built by `CentipedeGame.spawn_centipede`:
segment `i` of `n` has `is_head = (i == 0)`. -/
def mkChain (n : Nat) : List Seg :=
  (List.range n).map (fun i => { id := i, is_head := i == 0 })

/-- Head flags of a chain, in order. -/
def headFlags (segs : List Seg) : List Bool := segs.map Seg.is_head

/-- Ids of a chain, in order. -/
def idsOf (segs : List Seg) : List Nat := segs.map Seg.id

example : splitCentipedeAtSegment (mkChain 4) ⟨2, false⟩ =
    [⟨0, true⟩, ⟨1, true⟩, ⟨3, false⟩] := by decide

example : splitCentipedeAtSegment (mkChain 4) ⟨7, false⟩ = mkChain 4 := by decide

example : splitCentipedeAtSegment (mkChain 4) ⟨0, true⟩ =
    [⟨1, true⟩, ⟨2, false⟩, ⟨3, false⟩] := by decide

/-! ### Helper lemmas about the split -/

theorem map_eraseIdx_comm {α β : Type} (g : α → β) :
    ∀ (l : List α) (k : Nat), (l.eraseIdx k).map g = (l.map g).eraseIdx k
  | [], _ => by simp
  | _ :: _, 0 => by simp
  | a :: l, k + 1 => by
    simp [List.eraseIdx_cons_succ, map_eraseIdx_comm g l k]

theorem map_modify_comm {α β : Type} (f : α → α) (g : α → β) (h : β → β)
    (hc : ∀ a, g (f a) = h (g a)) :
    ∀ (k : Nat) (l : List α), (l.modify f k).map g = (l.map g).modify h k
  | _, [] => by simp
  | 0, _ :: _ => by simp [hc]
  | k + 1, a :: l => by simp [map_modify_comm f g h hc k l]

theorem split_eq_splitAtIndex (segs : List Seg) (hitSeg : Seg) (k : Nat)
    (hfind : segs.findIdx? (fun s => s.id == hitSeg.id) = some k) :
    splitCentipedeAtSegment segs hitSeg = splitAtIndex segs k := by
  unfold splitCentipedeAtSegment
  rw [hfind]

theorem findIdx?_some_lt {α : Type} {l : List α} {p : α → Bool} {k : Nat}
    (h : l.findIdx? p = some k) : k < l.length := by
  rcases List.findIdx?_eq_some_iff_getElem.mp h with ⟨hk, _⟩
  exact hk

theorem idsOf_promoteFirst (l : List Seg) : idsOf (promoteFirst l) = idsOf l := by
  cases l <;> simp [promoteFirst, idsOf, setHead]

theorem idsOf_splitAtIndex (segs : List Seg) (k : Nat) :
    idsOf (splitAtIndex segs k) = (idsOf segs).eraseIdx k := by
  unfold splitAtIndex
  rw [idsOf_promoteFirst]
  split
  · show idsOf ((segs.eraseIdx k).modify setHead (k - 1)) = _
    unfold idsOf
    rw [map_modify_comm setHead Seg.id id (fun _ => rfl),
      map_eraseIdx_comm, List.modify_id]
  · exact map_eraseIdx_comm Seg.id segs k

/-- C2: splitting a chain of length `N` at the index `k` at which the hit
segment sits removes exactly that element: the result has length `N - 1`,
its first `k` elements are (by identity) the elements that preceded the
hit segment, its remaining elements are the ones that followed it, the
head-subchain has length `k`, the tail-subchain length `N - 1 - k`, and
`k + (N - 1 - k) = N - 1`. -/
theorem split_conservation (segs : List Seg) (hitSeg : Seg) (k : Nat)
    (hfind : segs.findIdx? (fun s => s.id == hitSeg.id) = some k) :
    (splitCentipedeAtSegment segs hitSeg).length = segs.length - 1 ∧
    idsOf ((splitCentipedeAtSegment segs hitSeg).take k) = idsOf (segs.take k) ∧
    idsOf ((splitCentipedeAtSegment segs hitSeg).drop k) = idsOf (segs.drop (k + 1)) ∧
    ((splitCentipedeAtSegment segs hitSeg).take k).length = k ∧
    ((splitCentipedeAtSegment segs hitSeg).drop k).length = segs.length - 1 - k ∧
    k + (segs.length - 1 - k) = segs.length - 1 := by
  have hk : k < segs.length := findIdx?_some_lt hfind
  rw [split_eq_splitAtIndex segs hitSeg k hfind]
  have hids : idsOf (splitAtIndex segs k) = (idsOf segs).eraseIdx k :=
    idsOf_splitAtIndex segs k
  have hlen_ids : (idsOf segs).length = segs.length := by simp [idsOf]
  have hlen : (splitAtIndex segs k).length = segs.length - 1 := by
    have := congrArg List.length hids
    simp only [idsOf, List.length_map] at this
    rw [this, List.length_eraseIdx_of_lt (by simpa [idsOf] using hk)]
    simp
  have hlen_take : ((idsOf segs).take k).length = k := by
    rw [List.length_take, hlen_ids]
    omega
  have htake : idsOf ((splitAtIndex segs k).take k) = idsOf (segs.take k) := by
    have h1 : (idsOf (splitAtIndex segs k)).take k = (idsOf segs).take k := by
      rw [hids, List.eraseIdx_eq_take_drop_succ, List.take_left' hlen_take]
    simpa [idsOf, List.map_take] using h1
  have hdrop : idsOf ((splitAtIndex segs k).drop k) = idsOf (segs.drop (k + 1)) := by
    have h1 : (idsOf (splitAtIndex segs k)).drop k = (idsOf segs).drop (k + 1) := by
      rw [hids, List.eraseIdx_eq_take_drop_succ, List.drop_left' hlen_take]
    simpa [idsOf, List.map_drop] using h1
  refine ⟨hlen, htake, hdrop, ?_, ?_, ?_⟩
  · rw [List.length_take, hlen]
    omega
  · rw [List.length_drop, hlen]
  · omega

theorem split_conservation_witness :
    ((splitCentipedeAtSegment (mkChain 12) ⟨5, false⟩).length = 11 ∧
      idsOf ((splitCentipedeAtSegment (mkChain 12) ⟨5, false⟩).take 5) =
        idsOf ((mkChain 12).take 5) ∧
      idsOf ((splitCentipedeAtSegment (mkChain 12) ⟨5, false⟩).drop 5) =
        idsOf ((mkChain 12).drop 6) ∧
      ((splitCentipedeAtSegment (mkChain 12) ⟨5, false⟩).take 5).length = 5 ∧
      ((splitCentipedeAtSegment (mkChain 12) ⟨5, false⟩).drop 5).length = 6 ∧
      5 + (12 - 1 - 5) = 11) :=
  split_conservation (mkChain 12) ⟨5, false⟩ 5 (by decide)

/-- C9: requesting a split for a segment whose identity does not occur in
the chain is a no-op: the chain (membership, order and head flags alike)
is returned unchanged. -/
theorem split_absent_noop (segs : List Seg) (hitSeg : Seg)
    (h : ∀ s ∈ segs, s.id ≠ hitSeg.id) :
    splitCentipedeAtSegment segs hitSeg = segs := by
  unfold splitCentipedeAtSegment
  have hnone : segs.findIdx? (fun s => s.id == hitSeg.id) = none := by
    rw [List.findIdx?_eq_none_iff]
    intro s hs
    simpa using h s hs
  rw [hnone]

theorem split_absent_noop_witness :
    splitCentipedeAtSegment (mkChain 3) ⟨9, false⟩ = mkChain 3 :=
  split_absent_noop (mkChain 3) ⟨9, false⟩ (by decide)

/-! ### Head flags across a split -/

/-- Number of elements with `is_head = true`. -/
def headCount (segs : List Seg) : Nat := (headFlags segs).count true

/-- The action of `promoteFirst` on head flags alone. -/
def promoteFlags : List Bool → List Bool
  | [] => []
  | _ :: rest => true :: rest

/-- The action of `splitAtIndex` on head flags alone. -/
def splitFlagsAtIndex (bl : List Bool) (k : Nat) : List Bool :=
  promoteFlags
    (if k > 0 then (bl.eraseIdx k).modify (fun _ => true) (k - 1)
     else bl.eraseIdx k)

theorem headFlags_promoteFirst (l : List Seg) :
    headFlags (promoteFirst l) = promoteFlags (headFlags l) := by
  cases l <;> simp [promoteFirst, promoteFlags, headFlags, setHead]

theorem headFlags_splitAtIndex (segs : List Seg) (k : Nat) :
    headFlags (splitAtIndex segs k) = splitFlagsAtIndex (headFlags segs) k := by
  unfold splitAtIndex splitFlagsAtIndex
  rw [headFlags_promoteFirst]
  by_cases hk0 : k > 0
  · rw [if_pos hk0, if_pos hk0]
    congr 1
    unfold headFlags
    rw [map_modify_comm setHead Seg.is_head (fun _ => true) (fun _ => rfl),
      map_eraseIdx_comm]
  · rw [if_neg hk0, if_neg hk0]
    congr 1
    exact map_eraseIdx_comm Seg.is_head segs k

theorem count_true_modify_replicate_false :
    ∀ (j m : Nat), j < m →
      (((List.replicate m false).modify (fun _ => true) j).count true) = 1
  | 0, m + 1, _ => by
    simp [List.replicate_succ, List.count_replicate]
  | j + 1, m + 1, h => by
    rw [List.replicate_succ, List.modify_succ_cons]
    rw [List.count_cons_of_ne (by simp)]
    exact count_true_modify_replicate_false j m (by omega)

theorem splitFlags_zero (m : Nat) :
    splitFlagsAtIndex (true :: List.replicate m false) 0 =
      promoteFlags (List.replicate m false) := by
  simp [splitFlagsAtIndex]

theorem splitFlags_one (m : Nat) (hm : 1 ≤ m) :
    splitFlagsAtIndex (true :: List.replicate m false) 1 =
      true :: List.replicate (m - 1) false := by
  unfold splitFlagsAtIndex
  rw [if_pos (by omega), List.eraseIdx_cons_succ, List.eraseIdx_replicate,
    if_pos (by omega)]
  simp [promoteFlags]

theorem splitFlags_ge_two (m k : Nat) (h2 : 2 ≤ k) (hk : k ≤ m) :
    splitFlagsAtIndex (true :: List.replicate m false) k =
      true :: (List.replicate (m - 1) false).modify (fun _ => true) (k - 2) := by
  obtain ⟨j, rfl⟩ : ∃ j, k = j + 2 := ⟨k - 2, by omega⟩
  unfold splitFlagsAtIndex
  rw [if_pos (by omega), List.eraseIdx_cons_succ, List.eraseIdx_replicate,
    if_pos (by omega)]
  show promoteFlags ((true :: List.replicate (m - 1) false).modify
    (fun _ => true) (j + 1)) = _
  rw [List.modify_succ_cons]
  simp [promoteFlags]

/-- C1 as stated is false: splitting the canonical 4-segment chain (head
at index 0) at index 2 yields a head-subchain of two elements BOTH
flagged as heads, and a non-empty tail-subchain with NO head. -/
theorem single_head_counterexample :
    ((splitCentipedeAtSegment (mkChain 4) ⟨2, false⟩).take 2 ≠ [] ∧
      headCount ((splitCentipedeAtSegment (mkChain 4) ⟨2, false⟩).take 2) = 2) ∧
    ((splitCentipedeAtSegment (mkChain 4) ⟨2, false⟩).drop 2 ≠ [] ∧
      headCount ((splitCentipedeAtSegment (mkChain 4) ⟨2, false⟩).drop 2) = 0) := by
  decide

/-- C1 amended: head flags are only ever set, never cleared, by a split.
For a chain whose only head is its first element, splitting at the index
`k` of the hit segment gives: for `k = 0` an empty head-subchain and
(when anything survives) exactly one head overall; for `k = 1` exactly
one head in the head-subchain and none in the tail-subchain; for
`k ≥ 2` exactly TWO heads in the head-subchain (the original head at
index 0 and the newly promoted element at index `k - 1`) and none in the
tail-subchain. -/
theorem split_head_count (segs : List Seg) (hitSeg : Seg) (k : Nat)
    (hfind : segs.findIdx? (fun s => s.id == hitSeg.id) = some k)
    (hflags : headFlags segs = true :: List.replicate (segs.length - 1) false) :
    (k = 0 → (splitCentipedeAtSegment segs hitSeg).take k = [] ∧
      ((splitCentipedeAtSegment segs hitSeg) ≠ [] →
        headCount (splitCentipedeAtSegment segs hitSeg) = 1)) ∧
    (k = 1 → headCount ((splitCentipedeAtSegment segs hitSeg).take k) = 1 ∧
      headCount ((splitCentipedeAtSegment segs hitSeg).drop k) = 0) ∧
    (2 ≤ k → headCount ((splitCentipedeAtSegment segs hitSeg).take k) = 2 ∧
      headCount ((splitCentipedeAtSegment segs hitSeg).drop k) = 0) := by
  have hk : k < segs.length := findIdx?_some_lt hfind
  rw [split_eq_splitAtIndex segs hitSeg k hfind]
  have hres : headFlags (splitAtIndex segs k) =
      splitFlagsAtIndex (true :: List.replicate (segs.length - 1) false) k := by
    rw [headFlags_splitAtIndex, hflags]
  have htake : ∀ n, headFlags ((splitAtIndex segs k).take n) =
      (headFlags (splitAtIndex segs k)).take n := by
    intro n; simp [headFlags, List.map_take]
  have hdrop : ∀ n, headFlags ((splitAtIndex segs k).drop n) =
      (headFlags (splitAtIndex segs k)).drop n := by
    intro n; simp [headFlags, List.map_drop]
  refine ⟨?_, ?_, ?_⟩
  · rintro rfl
    refine ⟨by simp, ?_⟩
    intro hne
    have hm : segs.length - 1 ≠ 0 := by
      intro h0
      apply hne
      have : headFlags (splitAtIndex segs 0) = [] := by
        rw [hres, h0, splitFlags_zero]
        rfl
      simpa [headFlags] using this
    unfold headCount
    rw [hres, splitFlags_zero]
    obtain ⟨m, hm'⟩ : ∃ m, segs.length - 1 = m + 1 := ⟨segs.length - 2, by omega⟩
    rw [hm', List.replicate_succ]
    simp [promoteFlags, List.count_replicate]
  · rintro rfl
    have hm : 1 ≤ segs.length - 1 := by omega
    constructor
    · unfold headCount
      rw [htake, hres, splitFlags_one _ hm]
      simp [List.count_replicate]
    · unfold headCount
      rw [hdrop, hres, splitFlags_one _ hm]
      simp [List.count_replicate]
  · intro h2
    have hkm : k ≤ segs.length - 1 := by omega
    obtain ⟨j, rfl⟩ : ∃ j, k = j + 2 := ⟨k - 2, by omega⟩
    constructor
    · unfold headCount
      rw [htake, hres, splitFlags_ge_two _ (j + 2) h2 hkm]
      simp only [show j + 2 - 2 = j from rfl, show j + 2 - 1 = j + 1 from rfl]
      rw [List.take_cons, List.take_modify, List.take_replicate]
      have hmin : min (j + 2 - 1) (segs.length - 1 - 1) = j + 1 := by omega
      rw [hmin, List.count_cons_self,
        count_true_modify_replicate_false j (j + 1) (by omega)]
      omega
    · unfold headCount
      rw [hdrop, hres, splitFlags_ge_two _ (j + 2) h2 hkm]
      simp only [show j + 2 - 2 = j from rfl, show j + 2 - 1 = j + 1 from rfl]
      rw [List.drop_succ_cons, List.drop_modify_of_lt _ _ _ _ (by omega),
        List.drop_replicate]
      simp [List.count_replicate]

theorem split_head_count_witness :
    headCount ((splitCentipedeAtSegment (mkChain 4) ⟨2, false⟩).take 2) = 2 ∧
    headCount ((splitCentipedeAtSegment (mkChain 4) ⟨2, false⟩).drop 2) = 0 :=
  (split_head_count (mkChain 4) ⟨2, false⟩ 2 (by decide) (by decide)).2.2
    (by norm_num)

/-! ## Geometry and mushrooms

Python float arithmetic is embedded over `ℚ`; the Euclidean test
`a.distance_to(b) < r` is embedded as `distSq a b < r ^ 2`, which is
equivalent since both sides are nonnegative and squaring is monotone. -/

structure Vec2 where
  x : ℚ
  y : ℚ
deriving DecidableEq, Repr

def distSq (a b : Vec2) : ℚ := (a.x - b.x) ^ 2 + (a.y - b.y) ^ 2

/-- Embedding of the `Mushroom` class state (`__init__`): sprite handling
carries no logical state and is omitted. -/
structure Mushroom where
  pos : Vec2
  hits : Nat
  max_hits : Nat
  is_poisoned : Bool
  points : Nat
  is_destroyed : Bool
deriving DecidableEq, Repr

/-- A freshly constructed `Mushroom(x, y)`. -/
def mkMushroom (x y : ℚ) : Mushroom :=
  { pos := ⟨x, y⟩, hits := 0, max_hits := 4, is_poisoned := false,
    points := 1, is_destroyed := false }

/-! ## Segment locomotion

`CentipedeSegment`'s motion-relevant mutable state.  The chain
bookkeeping (`is_head` and object identity) is modelled separately by
`Seg` above; the Python attribute `in_player_area`, created on first
entry by `_enter_player_area`'s `hasattr` test, is modelled as a boolean
that starts `false`. -/

structure SegMotion where
  speed : ℚ
  direction : Vec2
  descent_distance : ℚ
  is_descending : Bool
  descend_progress : ℚ
  is_poisoned_descent : Bool
  pos : Vec2
  in_player_area : Bool
deriving DecidableEq, Repr

/-- Embedding of `CentipedeSegment._start_descent`. -/
def startDescent (seg : SegMotion) : SegMotion :=
  { seg with is_descending := true, descend_progress := 0 }

/-- Embedding of `CentipedeSegment._start_poison_descent`. -/
def startPoisonDescent (seg : SegMotion) : SegMotion :=
  { seg with
    direction := ⟨0, 1⟩
    is_poisoned_descent := true
    is_descending := false }

/-- Embedding of `CentipedeSegment._check_mushroom_collision` tested at
the prospective position `newPos`.  The Python code first filters out
destroyed mushrooms and then returns at the first one within distance
12, poisoning the segment's motion first if that mushroom is poisoned;
the returned pair is the (possibly mutated) segment and the boolean
result. -/
def checkMushroomCollision (seg : SegMotion) (newPos : Vec2) :
    List Mushroom → SegMotion × Bool
  | [] => (seg, false)
  | m :: rest =>
    if m.is_destroyed = false ∧ distSq newPos m.pos < 12 ^ 2 then
      (if m.is_poisoned then startPoisonDescent seg else seg, true)
    else checkMushroomCollision seg newPos rest

/-- The prospective position `new_pos = position + direction * (speed * delta_time)`
computed at the top of `_handle_horizontal_movement`. -/
def prospectivePos (seg : SegMotion) (dt : ℚ) : Vec2 :=
  ⟨seg.pos.x + seg.direction.x * (seg.speed * dt),
   seg.pos.y + seg.direction.y * (seg.speed * dt)⟩

/-- Embedding of `CentipedeSegment._handle_horizontal_movement`.  Python
short-circuits: the mushroom scan runs only when the boundary test
fails, and on any hit `_start_descent` runs on the (possibly
poison-mutated) segment; otherwise the prospective move is committed. -/
def handleHorizontalMovement (seg : SegMotion) (mushrooms : List Mushroom)
    (dt : ℚ) : SegMotion :=
  if (prospectivePos seg dt).x ≤ 16 ∨ (prospectivePos seg dt).x ≥ 784 then
    startDescent seg
  else if (checkMushroomCollision seg (prospectivePos seg dt) mushrooms).2 then
    startDescent (checkMushroomCollision seg (prospectivePos seg dt) mushrooms).1
  else
    { (checkMushroomCollision seg (prospectivePos seg dt) mushrooms).1 with
      pos := prospectivePos seg dt }

/-- Embedding of `CentipedeSegment._handle_descent` (Python first adds
`speed * 2 * delta_time` to the accumulator, then compares it with
`descent_distance`; the incremented value is written inline here). -/
def handleDescent (seg : SegMotion) (dt : ℚ) : SegMotion :=
  if seg.descend_progress + seg.speed * 2 * dt ≥ seg.descent_distance then
    { seg with
      is_descending := false
      descend_progress := 0
      direction := ⟨-seg.direction.x, seg.direction.y⟩
      is_poisoned_descent := false }
  else
    { seg with
      descend_progress := seg.descend_progress + seg.speed * 2 * dt
      pos := ⟨seg.pos.x, seg.pos.y + seg.speed * 2 * dt⟩ }

/-- Embedding of `CentipedeSegment._enter_player_area` (the `hasattr`
guard makes the speed reduction one-time). -/
def enterPlayerArea (seg : SegMotion) : SegMotion :=
  if seg.in_player_area then seg
  else { seg with in_player_area := true, speed := seg.speed * (7 / 10) }

/-- The trailing player-area check of `CentipedeSegment.update`
(`if self.transform.position.y > 400: self._enter_player_area()`). -/
def playerAreaStep (seg : SegMotion) : SegMotion :=
  if seg.pos.y > 400 then enterPlayerArea seg else seg

/-- Embedding of `CentipedeSegment.update`: dispatch on `is_descending`,
then the player-area check. -/
def segUpdate (seg : SegMotion) (mushrooms : List Mushroom) (dt : ℚ) :
    SegMotion :=
  playerAreaStep
    (if seg.is_descending then handleDescent seg dt
     else handleHorizontalMovement seg mushrooms dt)

/-- Fields that the player-area check can never touch: everything except
`speed` and `in_player_area`. -/
theorem playerAreaStep_keeps (seg : SegMotion) :
    (playerAreaStep seg).is_descending = seg.is_descending ∧
    (playerAreaStep seg).descend_progress = seg.descend_progress ∧
    (playerAreaStep seg).direction = seg.direction ∧
    (playerAreaStep seg).pos = seg.pos ∧
    (playerAreaStep seg).is_poisoned_descent = seg.is_poisoned_descent ∧
    (playerAreaStep seg).descent_distance = seg.descent_distance := by
  unfold playerAreaStep enterPlayerArea
  split
  · split <;> simp
  · simp

/-- C4: a Descending segment whose accumulator reaches
`descent_distance` this tick returns to horizontal movement: the
descending flag is cleared, the accumulator is reset to 0, and the
horizontal direction component is negated exactly once (the vertical
component is untouched). -/
theorem descent_completion (seg : SegMotion) (mushrooms : List Mushroom)
    (dt : ℚ) (hd : seg.is_descending = true)
    (hreach : seg.descend_progress + seg.speed * 2 * dt ≥ seg.descent_distance) :
    (segUpdate seg mushrooms dt).is_descending = false ∧
    (segUpdate seg mushrooms dt).descend_progress = 0 ∧
    (segUpdate seg mushrooms dt).direction.x = -seg.direction.x ∧
    (segUpdate seg mushrooms dt).direction.y = seg.direction.y := by
  have h1 : segUpdate seg mushrooms dt = playerAreaStep (handleDescent seg dt) := by
    unfold segUpdate
    rw [hd]
    rfl
  have hd2 : handleDescent seg dt =
      { seg with
        is_descending := false
        descend_progress := 0
        direction := ⟨-seg.direction.x, seg.direction.y⟩
        is_poisoned_descent := false } := by
    unfold handleDescent
    rw [if_pos hreach]
  obtain ⟨k1, k2, k3, _, _, _⟩ := playerAreaStep_keeps (handleDescent seg dt)
  rw [h1]
  exact ⟨by rw [k1, hd2], by rw [k2, hd2], by rw [k3, hd2], by rw [k3, hd2]⟩

/-- C10: while a segment is Descending and the incremented accumulator
stays below `descent_distance`, the tick is independent of the mushroom
field (no obstacle or boundary test runs): it advances only the vertical
position and the accumulator, leaves `pos.x`, `direction`, both state
flags and `descent_distance` unchanged, and at most applies the one-time
player-area speed reduction. -/
theorem descending_tick_frame_effect (seg : SegMotion)
    (mushrooms mushrooms' : List Mushroom) (dt : ℚ)
    (hd : seg.is_descending = true)
    (hbelow : seg.descend_progress + seg.speed * 2 * dt < seg.descent_distance) :
    segUpdate seg mushrooms' dt = segUpdate seg mushrooms dt ∧
    (segUpdate seg mushrooms dt).pos.x = seg.pos.x ∧
    (segUpdate seg mushrooms dt).pos.y = seg.pos.y + seg.speed * 2 * dt ∧
    (segUpdate seg mushrooms dt).descend_progress =
      seg.descend_progress + seg.speed * 2 * dt ∧
    (segUpdate seg mushrooms dt).direction = seg.direction ∧
    (segUpdate seg mushrooms dt).is_descending = true ∧
    (segUpdate seg mushrooms dt).is_poisoned_descent = seg.is_poisoned_descent ∧
    (segUpdate seg mushrooms dt).descent_distance = seg.descent_distance ∧
    (((segUpdate seg mushrooms dt).speed = seg.speed ∧
        (segUpdate seg mushrooms dt).in_player_area = seg.in_player_area) ∨
      ((segUpdate seg mushrooms dt).speed = seg.speed * (7 / 10) ∧
        (segUpdate seg mushrooms dt).in_player_area = true)) := by
  have h1 : ∀ ms : List Mushroom,
      segUpdate seg ms dt = playerAreaStep (handleDescent seg dt) := by
    intro ms
    unfold segUpdate
    rw [hd]
    rfl
  have hd2 : handleDescent seg dt =
      { seg with
        descend_progress := seg.descend_progress + seg.speed * 2 * dt
        pos := ⟨seg.pos.x, seg.pos.y + seg.speed * 2 * dt⟩ } := by
    unfold handleDescent
    rw [if_neg (not_le.mpr hbelow)]
  obtain ⟨k1, k2, k3, k4, k5, k6⟩ := playerAreaStep_keeps (handleDescent seg dt)
  have hsp : (handleDescent seg dt).speed = seg.speed := by rw [hd2]
  have hpa : (handleDescent seg dt).in_player_area = seg.in_player_area := by
    rw [hd2]
  refine ⟨by rw [h1, h1], ?_, ?_, ?_, ?_, ?_, ?_, ?_, ?_⟩
  · rw [h1, k4, hd2]
  · rw [h1, k4, hd2]
  · rw [h1, k2, hd2]
  · rw [h1, k3, hd2]
  · rw [h1, k1, hd2]
    exact hd
  · rw [h1, k5, hd2]
  · rw [h1, k6, hd2]
  · rw [h1]
    unfold playerAreaStep enterPlayerArea
    split
    · split
      · exact Or.inl ⟨hsp, by assumption⟩
      · refine Or.inr ⟨?_, rfl⟩
        show (handleDescent seg dt).speed * (7 / 10) = seg.speed * (7 / 10)
        rw [hsp]
    · exact Or.inl ⟨hsp, hpa⟩

theorem descending_tick_frame_effect_witness :
    (segUpdate ⟨50, ⟨1, 0⟩, 16, true, 0, true, ⟨100, 100⟩, false⟩
        [mkMushroom 500 100] (1 / 10) =
      segUpdate ⟨50, ⟨1, 0⟩, 16, true, 0, true, ⟨100, 100⟩, false⟩ [] (1 / 10) ∧
      (segUpdate ⟨50, ⟨1, 0⟩, 16, true, 0, true, ⟨100, 100⟩, false⟩ []
        (1 / 10)).pos.x = 100 ∧
      (segUpdate ⟨50, ⟨1, 0⟩, 16, true, 0, true, ⟨100, 100⟩, false⟩ []
        (1 / 10)).pos.y = 100 + 50 * 2 * (1 / 10) ∧
      (segUpdate ⟨50, ⟨1, 0⟩, 16, true, 0, true, ⟨100, 100⟩, false⟩ []
        (1 / 10)).descend_progress = 0 + 50 * 2 * (1 / 10) ∧
      (segUpdate ⟨50, ⟨1, 0⟩, 16, true, 0, true, ⟨100, 100⟩, false⟩ []
        (1 / 10)).direction = ⟨1, 0⟩ ∧
      (segUpdate ⟨50, ⟨1, 0⟩, 16, true, 0, true, ⟨100, 100⟩, false⟩ []
        (1 / 10)).is_descending = true ∧
      (segUpdate ⟨50, ⟨1, 0⟩, 16, true, 0, true, ⟨100, 100⟩, false⟩ []
        (1 / 10)).is_poisoned_descent = true ∧
      (segUpdate ⟨50, ⟨1, 0⟩, 16, true, 0, true, ⟨100, 100⟩, false⟩ []
        (1 / 10)).descent_distance = 16 ∧
      (((segUpdate ⟨50, ⟨1, 0⟩, 16, true, 0, true, ⟨100, 100⟩, false⟩ []
          (1 / 10)).speed = 50 ∧
        (segUpdate ⟨50, ⟨1, 0⟩, 16, true, 0, true, ⟨100, 100⟩, false⟩ []
          (1 / 10)).in_player_area = false) ∨
       ((segUpdate ⟨50, ⟨1, 0⟩, 16, true, 0, true, ⟨100, 100⟩, false⟩ []
          (1 / 10)).speed = 50 * (7 / 10) ∧
        (segUpdate ⟨50, ⟨1, 0⟩, 16, true, 0, true, ⟨100, 100⟩, false⟩ []
          (1 / 10)).in_player_area = true))) :=
  descending_tick_frame_effect ⟨50, ⟨1, 0⟩, 16, true, 0, true, ⟨100, 100⟩, false⟩
    [] [mkMushroom 500 100] (1 / 10) rfl (by norm_num)

theorem descent_completion_witness :
    ((segUpdate ⟨50, ⟨1, 0⟩, 16, true, 15, false, ⟨100, 100⟩, false⟩ []
        (1 / 10)).is_descending = false ∧
      (segUpdate ⟨50, ⟨1, 0⟩, 16, true, 15, false, ⟨100, 100⟩, false⟩ []
        (1 / 10)).descend_progress = 0 ∧
      (segUpdate ⟨50, ⟨1, 0⟩, 16, true, 15, false, ⟨100, 100⟩, false⟩ []
        (1 / 10)).direction.x = -(1 : ℚ) ∧
      (segUpdate ⟨50, ⟨1, 0⟩, 16, true, 15, false, ⟨100, 100⟩, false⟩ []
        (1 / 10)).direction.y = 0) :=
  descent_completion ⟨50, ⟨1, 0⟩, 16, true, 15, false, ⟨100, 100⟩, false⟩ []
    (1 / 10) rfl (by norm_num)

/-! ### Poison-mushroom collision -/

/-- The first live mushroom within distance 12 of `p`, if any — the one
at which the Python scan in `_check_mushroom_collision` returns. -/
def firstLiveCollision (p : Vec2) : List Mushroom → Option Mushroom
  | [] => none
  | m :: rest =>
    if m.is_destroyed = false ∧ distSq p m.pos < 12 ^ 2 then some m
    else firstLiveCollision p rest

theorem checkMushroomCollision_poisoned (seg : SegMotion) (p : Vec2)
    (ms : List Mushroom) (m : Mushroom)
    (hfi : firstLiveCollision p ms = some m) (hp : m.is_poisoned = true) :
    checkMushroomCollision seg p ms = (startPoisonDescent seg, true) := by
  induction ms with
  | nil => simp [firstLiveCollision] at hfi
  | cons a rest ih =>
    unfold firstLiveCollision at hfi
    unfold checkMushroomCollision
    by_cases hc : (a.is_destroyed = false ∧ distSq p a.pos < 12 ^ 2)
    · rw [if_pos hc] at hfi ⊢
      have ham : a = m := by injection hfi
      rw [ham, if_pos hp]
    · rw [if_neg hc] at hfi ⊢
      exact ih hfi

theorem checkMushroomCollision_fst_cases (seg : SegMotion) (p : Vec2) :
    ∀ ms : List Mushroom,
      (checkMushroomCollision seg p ms).1 = seg ∨
      (checkMushroomCollision seg p ms).1 = startPoisonDescent seg
  | [] => Or.inl rfl
  | a :: rest => by
    unfold checkMushroomCollision
    by_cases hc : (a.is_destroyed = false ∧ distSq p a.pos < 12 ^ 2)
    · rw [if_pos hc]
      by_cases hps : a.is_poisoned = true
      · rw [if_pos hps]
        exact Or.inr rfl
      · rw [if_neg hps]
        exact Or.inl rfl
    · rw [if_neg hc]
      exact checkMushroomCollision_fst_cases seg p rest

/-- Helper: a segment whose horizontal direction component is zero keeps
it zero through any tick — `_handle_descent`'s completion negates it
(`-0 = 0`), `_start_poison_descent` sets it to `0`, and nothing else
writes `direction`. -/
theorem segUpdate_direction_x_zero (s : SegMotion) (ms : List Mushroom)
    (dt : ℚ) (hx : s.direction.x = 0) :
    (segUpdate s ms dt).direction.x = 0 := by
  unfold segUpdate
  obtain ⟨-, -, k3, -, -, -⟩ := playerAreaStep_keeps
    (if s.is_descending then handleDescent s dt
     else handleHorizontalMovement s ms dt)
  rw [k3]
  by_cases hdesc : s.is_descending = true
  · rw [hdesc, if_pos rfl]
    unfold handleDescent
    split
    · show -s.direction.x = 0
      rw [hx, neg_zero]
    · exact hx
  · rw [if_neg (by simpa using hdesc)]
    unfold handleHorizontalMovement
    split
    · exact hx
    · split
      · rcases checkMushroomCollision_fst_cases s (prospectivePos s dt) ms with
          h | h
        · show (startDescent (checkMushroomCollision s (prospectivePos s dt) ms).1).direction.x = 0
          rw [h]
          exact hx
        · show (startDescent (checkMushroomCollision s (prospectivePos s dt) ms).1).direction.x = 0
          rw [h]
          rfl
      · rcases checkMushroomCollision_fst_cases s (prospectivePos s dt) ms with
          h | h
        · show (checkMushroomCollision s (prospectivePos s dt) ms).1.direction.x = 0
          rw [h]
          exact hx
        · show (checkMushroomCollision s (prospectivePos s dt) ms).1.direction.x = 0
          rw [h]
          rfl

/-- A Moving segment used in the poison counterexample. -/
def segEx : SegMotion := ⟨50, ⟨1, 0⟩, 16, false, 0, false, ⟨100, 100⟩, false⟩

/-- A live poison mushroom sitting on `segEx`'s prospective position. -/
def poisonMushEx : Mushroom := { mkMushroom 105 100 with is_poisoned := true }

/-- C3 as stated is false in its "skip the normal descent accumulator"
part: after colliding with a poison mushroom the segment has BOTH
`is_poisoned_descent = true` and `is_descending = true` (because
`_check_mushroom_collision` returns `True`, so the caller still runs
`_start_descent`), and the following tick accumulates
`descend_progress` through the normal descent machinery. -/
theorem poison_override_counterexample :
    (segUpdate segEx [poisonMushEx] (1 / 10)).is_poisoned_descent = true ∧
    (segUpdate segEx [poisonMushEx] (1 / 10)).is_descending = true ∧
    (segUpdate (segUpdate segEx [poisonMushEx] (1 / 10)) [] (1 / 10)).descend_progress
      = 10 := by
  refine ⟨?_, ?_, ?_⟩ <;>
    norm_num [segUpdate, segEx, poisonMushEx, handleHorizontalMovement,
      prospectivePos, checkMushroomCollision, startPoisonDescent, startDescent,
      handleDescent, playerAreaStep, enterPlayerArea, mkMushroom, distSq]

/-- C3 amended: a Moving segment whose prospective position misses the
lateral boundaries and whose first live colliding mushroom is poisoned
gets direction `(0, 1)` (straight down) and `is_poisoned_descent = true`,
but ALSO enters the normal descent state: `is_descending = true` with the
accumulator reset to `0`, so the normal descent accumulator IS used; the
position is not advanced that tick.  Its horizontal direction component,
once zero, stays zero under every further tick, so the segment never
reverses (or regains) horizontal motion while descending as poisoned. -/
theorem poison_override (seg : SegMotion) (mushrooms : List Mushroom)
    (m : Mushroom) (dt : ℚ)
    (hmov : seg.is_descending = false)
    (hbx : ¬((prospectivePos seg dt).x ≤ 16 ∨ (prospectivePos seg dt).x ≥ 784))
    (hfi : firstLiveCollision (prospectivePos seg dt) mushrooms = some m)
    (hp : m.is_poisoned = true) :
    ((segUpdate seg mushrooms dt).direction = ⟨0, 1⟩ ∧
      (segUpdate seg mushrooms dt).is_poisoned_descent = true ∧
      (segUpdate seg mushrooms dt).is_descending = true ∧
      (segUpdate seg mushrooms dt).descend_progress = 0 ∧
      (segUpdate seg mushrooms dt).pos = seg.pos) ∧
    (∀ (s : SegMotion) (ms : List Mushroom) (dt' : ℚ),
      s.direction.x = 0 → (segUpdate s ms dt').direction.x = 0) := by
  have hchk := checkMushroomCollision_poisoned seg (prospectivePos seg dt)
    mushrooms m hfi hp
  have h2 : handleHorizontalMovement seg mushrooms dt =
      startDescent (startPoisonDescent seg) := by
    unfold handleHorizontalMovement
    rw [if_neg hbx, hchk]
    rfl
  have h1 : segUpdate seg mushrooms dt =
      playerAreaStep (startDescent (startPoisonDescent seg)) := by
    unfold segUpdate
    rw [hmov, h2]
    rfl
  obtain ⟨k1, k2, k3, k4, k5, k6⟩ :=
    playerAreaStep_keeps (startDescent (startPoisonDescent seg))
  refine ⟨⟨?_, ?_, ?_, ?_, ?_⟩, segUpdate_direction_x_zero⟩
  · rw [h1, k3]
    rfl
  · rw [h1, k5]
    rfl
  · rw [h1, k1]
    rfl
  · rw [h1, k2]
    rfl
  · rw [h1, k4]
    rfl

theorem poison_override_witness :
    ((segUpdate segEx [poisonMushEx] (1 / 10)).direction = ⟨0, 1⟩ ∧
      (segUpdate segEx [poisonMushEx] (1 / 10)).is_poisoned_descent = true ∧
      (segUpdate segEx [poisonMushEx] (1 / 10)).is_descending = true ∧
      (segUpdate segEx [poisonMushEx] (1 / 10)).descend_progress = 0 ∧
      (segUpdate segEx [poisonMushEx] (1 / 10)).pos = segEx.pos) ∧
    (segUpdate (segUpdate segEx [poisonMushEx] (1 / 10)) [] (1 / 10)).direction.x
      = 0 := by
  obtain ⟨hmain, hinv⟩ :=
    poison_override segEx [poisonMushEx] poisonMushEx (1 / 10) rfl
      (by norm_num [prospectivePos, segEx])
      (by norm_num [firstLiveCollision, prospectivePos, segEx, poisonMushEx,
        mkMushroom, distSq])
      rfl
  refine ⟨hmain, hinv _ [] (1 / 10) ?_⟩
  rw [hmain.1]

/-! ## Mushroom durability and hit idempotence -/

/-- Embedding of `Mushroom.hit`: Python increments `hits`, then destroys
and awards `points` when `hits >= max_hits`; guarded by `is_destroyed`.
The score sink `self.scene.engine.score` is threaded explicitly. -/
def Mushroom.hit (m : Mushroom) (score : Nat) : Mushroom × Nat :=
  if m.is_destroyed then (m, score)
  else if m.hits + 1 ≥ m.max_hits then
    ({ m with hits := m.hits + 1, is_destroyed := true }, score + m.points)
  else
    ({ m with hits := m.hits + 1 }, score)

/-- `n` successive `hit()` calls. -/
def hitRepeat : Nat → Mushroom × Nat → Mushroom × Nat
  | 0, p => p
  | n + 1, p => hitRepeat n (Mushroom.hit p.1 p.2)

/-- C5: a fresh mushroom survives any `n < 4 = max_hits` hits with
`hits = n` and no points awarded; the 4th hit destroys it and awards its
point value `1`; and `hits < max_hits` holds at creation and is
preserved by `hit` whenever the result is still alive. -/
theorem mushroom_durability (x y : ℚ) (s n : Nat) (hn : n ≤ 4) :
    (n < 4 → (hitRepeat n (mkMushroom x y, s)).1.is_destroyed = false ∧
      (hitRepeat n (mkMushroom x y, s)).1.hits = n ∧
      (hitRepeat n (mkMushroom x y, s)).2 = s) ∧
    (n = 4 → (hitRepeat n (mkMushroom x y, s)).1.is_destroyed = true ∧
      (hitRepeat n (mkMushroom x y, s)).2 = s + 1) ∧
    (mkMushroom x y).hits < (mkMushroom x y).max_hits ∧
    (∀ (m : Mushroom) (t : Nat), (Mushroom.hit m t).1.is_destroyed = false →
      (Mushroom.hit m t).1.hits < (Mushroom.hit m t).1.max_hits) := by
  refine ⟨?_, ?_, by norm_num [mkMushroom], ?_⟩
  · intro hlt
    interval_cases n
    · exact ⟨rfl, rfl, rfl⟩
    · exact ⟨rfl, rfl, rfl⟩
    · exact ⟨rfl, rfl, rfl⟩
    · exact ⟨rfl, rfl, rfl⟩
  · rintro rfl
    exact ⟨rfl, rfl⟩
  · intro m t halive
    by_cases hd : m.is_destroyed = true
    · simp [Mushroom.hit, hd] at halive
    · have hd' : m.is_destroyed = false := by
        revert hd
        cases m.is_destroyed <;> simp
      by_cases hm : m.hits + 1 ≥ m.max_hits
      · simp [Mushroom.hit, hd', hm] at halive
      · simp only [Mushroom.hit, hd', if_neg hm]
        simp only [Bool.false_eq_true, if_false]
        omega

theorem mushroom_durability_witness :
    (hitRepeat 2 (mkMushroom 50 100, 7)).1.is_destroyed = false ∧
    (hitRepeat 2 (mkMushroom 50 100, 7)).1.hits = 2 ∧
    (hitRepeat 2 (mkMushroom 50 100, 7)).2 = 7 ∧
    (hitRepeat 4 (mkMushroom 50 100, 7)).1.is_destroyed = true ∧
    (hitRepeat 4 (mkMushroom 50 100, 7)).2 = 7 + 1 ∧
    (mkMushroom 50 100).hits < (mkMushroom 50 100).max_hits ∧
    (Mushroom.hit (mkMushroom 50 100) 7).1.hits <
      (Mushroom.hit (mkMushroom 50 100) 7).1.max_hits := by
  obtain ⟨ha, -, hfresh, hinv⟩ := mushroom_durability 50 100 7 2 (by norm_num)
  obtain ⟨-, hb, -, -⟩ := mushroom_durability 50 100 7 4 (by norm_num)
  obtain ⟨d1, d2, d3⟩ := ha (by norm_num)
  obtain ⟨e1, e2⟩ := hb rfl
  exact ⟨d1, d2, d3, e1, e2, hfresh, hinv (mkMushroom 50 100) 7 rfl⟩

/-- Embedding of the `Flea` class state relevant to `hit` (the
randomized drop logic of `update` carries no state read by `hit`). -/
structure Flea where
  speed : ℚ
  hits_required : Nat
  hits_taken : Nat
  points : Nat
  is_destroyed : Bool
deriving DecidableEq, Repr

/-- Embedding of `Flea.hit` — the source has NO `is_destroyed` guard: it
unconditionally increments `hits_taken`, and awards points and destroys
whenever the incremented count reaches `hits_required`. -/
def Flea.hit (f : Flea) (score : Nat) : Flea × Nat :=
  if f.hits_taken + 1 ≥ f.hits_required then
    ({ f with hits_taken := f.hits_taken + 1, is_destroyed := true },
      score + f.points)
  else ({ f with hits_taken := f.hits_taken + 1 }, score)

/-- A flea that has already been destroyed by its two required hits. -/
def deadFleaEx : Flea := ⟨100, 2, 2, 200, true⟩

/-- C7 as stated is false for `Flea`: hitting an already-destroyed flea
increments its counter from 2 to 3 and awards its 200 points again. -/
theorem destroy_idempotent_counterexample :
    deadFleaEx.is_destroyed = true ∧
    (Flea.hit deadFleaEx 0).1.hits_taken = 3 ∧
    (Flea.hit deadFleaEx 0).2 = 200 :=
  ⟨rfl, rfl, rfl⟩

/-- The chain-bookkeeping view of a `CentipedeSegment` as needed by its
`hit` method: identity, head flag, position and destroyed flag. -/
structure SegObj where
  id : Nat
  is_head : Bool
  pos : Vec2
  is_destroyed : Bool
deriving DecidableEq, Repr

def SegObj.toSeg (sg : SegObj) : Seg := ⟨sg.id, sg.is_head⟩

/-- Embedding of `CentipedeSegment.hit`: guarded by `is_destroyed`; on a
live segment it awards 100 (head) or 10 (body) points, spawns one
mushroom at the segment's position, splits the owning chain at the
segment, and destroys it. -/
def segObjHit (sg : SegObj) (chain : List Seg) (score : Nat)
    (spawned : List Vec2) : SegObj × List Seg × Nat × List Vec2 :=
  if sg.is_destroyed then (sg, chain, score, spawned)
  else
    ({ sg with is_destroyed := true },
      splitCentipedeAtSegment chain sg.toSeg,
      score + (if sg.is_head then 100 else 10),
      spawned ++ [sg.pos])

/-- C7 amended: destruction is idempotent for `Mushroom.hit` and
`CentipedeSegment.hit` (both are guarded no-ops on a destroyed entity:
no counter changes, no points, no spawns, no split), but NOT for
`Flea.hit`, which lacks the guard. -/
theorem destroy_idempotent_guarded :
    (∀ (m : Mushroom) (s : Nat), m.is_destroyed = true →
      Mushroom.hit m s = (m, s)) ∧
    (∀ (sg : SegObj) (chain : List Seg) (score : Nat) (spawned : List Vec2),
      sg.is_destroyed = true →
      segObjHit sg chain score spawned = (sg, chain, score, spawned)) := by
  constructor
  · intro m s h
    simp [Mushroom.hit, h]
  · intro sg chain score spawned h
    simp [segObjHit, h]

theorem destroy_idempotent_guarded_witness :
    (Mushroom.hit { mkMushroom 3 4 with is_destroyed := true } 9 =
      ({ mkMushroom 3 4 with is_destroyed := true }, 9) ∧
    segObjHit ⟨1, true, ⟨3, 4⟩, true⟩ (mkChain 2) 9 [] =
      (⟨1, true, ⟨3, 4⟩, true⟩, mkChain 2, 9, [])) :=
  ⟨destroy_idempotent_guarded.1 { mkMushroom 3 4 with is_destroyed := true } 9 rfl,
   destroy_idempotent_guarded.2 ⟨1, true, ⟨3, 4⟩, true⟩ (mkChain 2) 9 [] rfl⟩

/-! ## Wave scaling -/

/-- Embedding of the spawn-rate updates of `CentipedeGame._next_level`:
`flea_spawn_rate = max(5.0, flea_spawn_rate - 0.5)`,
`spider_spawn_rate = max(10.0, spider_spawn_rate - 1.0)`,
`scorpion_spawn_rate = max(25.0 ... - 2.0)` clamped at `15.0`. -/
def nextLevelRates (r : ℚ × ℚ × ℚ) : ℚ × ℚ × ℚ :=
  (max 5 (r.1 - 1 / 2), max 10 (r.2.1 - 1), max 15 (r.2.2 - 2))

/-- Initial `(flea, spider, scorpion)` spawn rates from
`CentipedeGame.__init__`. -/
def initialRates : ℚ × ℚ × ℚ := (8, 15, 25)

/-- Spawn rates after `n` wave advancements (`rate(w) = ratesAfter (w - 1)`
for level number `w` starting at 1). -/
def ratesAfter : Nat → ℚ × ℚ × ℚ
  | 0 => initialRates
  | n + 1 => nextLevelRates (ratesAfter n)

theorem clamp_step_eq (f d b c : ℚ) (hd : 0 ≤ d) (x : ℚ)
    (hx : x = max f (b - c * d)) :
    max f (x - d) = max f (b - (c + 1) * d) := by
  subst hx
  rw [← max_sub_sub_right, ← max_assoc, max_eq_left (by linarith : f - d ≤ f)]
  congr 1
  ring

theorem ratesAfter_closed (n : Nat) :
    (ratesAfter n).1 = max 5 (8 - (n : ℚ) * (1 / 2)) ∧
    (ratesAfter n).2.1 = max 10 (15 - (n : ℚ) * 1) ∧
    (ratesAfter n).2.2 = max 15 (25 - (n : ℚ) * 2) := by
  induction n with
  | zero =>
    refine ⟨?_, ?_, ?_⟩ <;> norm_num [ratesAfter, initialRates]
  | succ n ih =>
    obtain ⟨i1, i2, i3⟩ := ih
    refine ⟨?_, ?_, ?_⟩
    · show max 5 ((ratesAfter n).1 - 1 / 2) = _
      rw [clamp_step_eq 5 (1 / 2) 8 (n : ℚ) (by norm_num) _ i1]
      push_cast
      ring_nf
    · show max 10 ((ratesAfter n).2.1 - 1) = _
      rw [clamp_step_eq 10 1 15 (n : ℚ) (by norm_num) _ i2]
      push_cast
      ring_nf
    · show max 15 ((ratesAfter n).2.2 - 2) = _
      rw [clamp_step_eq 15 2 25 (n : ℚ) (by norm_num) _ i3]
      push_cast
      ring_nf

/-- C6: each category's rate after `n` advancements equals
`max(floor, base - n * decrement)`; rates are antitone in the wave
number and never drop below the floor; for the flea category
`rate(7) = ratesAfter 6 = 5` (clamped) and
`rate(4) = ratesAfter 3 = 13/2 = 6.5` (unclamped). -/
theorem wave_scaling (n w1 w2 : Nat) (hw : w1 < w2) :
    (ratesAfter n).1 = max 5 (8 - (n : ℚ) * (1 / 2)) ∧
    (ratesAfter n).2.1 = max 10 (15 - (n : ℚ) * 1) ∧
    (ratesAfter n).2.2 = max 15 (25 - (n : ℚ) * 2) ∧
    (ratesAfter w2).1 ≤ (ratesAfter w1).1 ∧
    (ratesAfter w2).2.1 ≤ (ratesAfter w1).2.1 ∧
    (ratesAfter w2).2.2 ≤ (ratesAfter w1).2.2 ∧
    5 ≤ (ratesAfter n).1 ∧ 10 ≤ (ratesAfter n).2.1 ∧
    15 ≤ (ratesAfter n).2.2 ∧
    (ratesAfter 6).1 = 5 ∧ (ratesAfter 3).1 = 13 / 2 := by
  have hc := ratesAfter_closed
  have hcast : (w1 : ℚ) ≤ (w2 : ℚ) := by
    exact_mod_cast Nat.le_of_lt hw
  refine ⟨(hc n).1, (hc n).2.1, (hc n).2.2, ?_, ?_, ?_, ?_, ?_, ?_, ?_, ?_⟩
  · rw [(hc w1).1, (hc w2).1]
    exact max_le_max le_rfl (by nlinarith)
  · rw [(hc w1).2.1, (hc w2).2.1]
    exact max_le_max le_rfl (by nlinarith)
  · rw [(hc w1).2.2, (hc w2).2.2]
    exact max_le_max le_rfl (by nlinarith)
  · rw [(hc n).1]
    exact le_max_left _ _
  · rw [(hc n).2.1]
    exact le_max_left _ _
  · rw [(hc n).2.2]
    exact le_max_left _ _
  · rw [(hc 6).1]
    norm_num
  · rw [(hc 3).1]
    rw [max_eq_right (by norm_num)]
    norm_num

theorem wave_scaling_witness :
    ((ratesAfter 2).1 = max 5 (8 - ((2 : ℕ) : ℚ) * (1 / 2)) ∧
    (ratesAfter 2).2.1 = max 10 (15 - ((2 : ℕ) : ℚ) * 1) ∧
    (ratesAfter 2).2.2 = max 15 (25 - ((2 : ℕ) : ℚ) * 2) ∧
    (ratesAfter 5).1 ≤ (ratesAfter 1).1 ∧
    (ratesAfter 5).2.1 ≤ (ratesAfter 1).2.1 ∧
    (ratesAfter 5).2.2 ≤ (ratesAfter 1).2.2 ∧
    5 ≤ (ratesAfter 2).1 ∧ 10 ≤ (ratesAfter 2).2.1 ∧
    15 ≤ (ratesAfter 2).2.2 ∧
    (ratesAfter 6).1 = 5 ∧ (ratesAfter 3).1 = 13 / 2) :=
  wave_scaling 2 1 5 (by norm_num)

/-! ## Spawn timers -/

/-- The spawn-timer and spawn-rate state of `CentipedeGame`. -/
structure SpawnState where
  flea_spawn_timer : ℚ
  spider_spawn_timer : ℚ
  scorpion_spawn_timer : ℚ
  flea_spawn_rate : ℚ
  spider_spawn_rate : ℚ
  scorpion_spawn_rate : ℚ
deriving DecidableEq, Repr

/-- Live mushrooms in the player area (`position.y > 400`): the
population guard for flea spawning in `_spawn_enemies`. -/
def playerAreaMushroomCount (ms : List Mushroom) : Nat :=
  (ms.filter (fun m => !m.is_destroyed && decide (m.pos.y > 400))).length

/-- The three `+= delta_time` timer increments at the top of
`CentipedeGame.update`. -/
def tickTimers (st : SpawnState) (dt : ℚ) : SpawnState :=
  { st with
    flea_spawn_timer := st.flea_spawn_timer + dt
    spider_spawn_timer := st.spider_spawn_timer + dt
    scorpion_spawn_timer := st.scorpion_spawn_timer + dt }

/-- The flea block of `_spawn_enemies`: on trigger, spawn only if fewer
than 3 live mushrooms sit in the player area, but reset the timer to 0
either way. -/
def fleaStep (st : SpawnState) (mushrooms : List Mushroom) :
    SpawnState × Bool :=
  if st.flea_spawn_timer ≥ st.flea_spawn_rate then
    ({ st with flea_spawn_timer := 0 },
      decide (playerAreaMushroomCount mushrooms < 3))
  else (st, false)

/-- The spider block of `_spawn_enemies` (no population guard). -/
def spiderStep (st : SpawnState) : SpawnState × Bool :=
  if st.spider_spawn_timer ≥ st.spider_spawn_rate then
    ({ st with spider_spawn_timer := 0 }, true)
  else (st, false)

/-- The scorpion block of `_spawn_enemies` (no population guard). -/
def scorpionStep (st : SpawnState) : SpawnState × Bool :=
  if st.scorpion_spawn_timer ≥ st.scorpion_spawn_rate then
    ({ st with scorpion_spawn_timer := 0 }, true)
  else (st, false)

/-- Embedding of `CentipedeGame._spawn_enemies`: the three blocks in
source order; returns the final state and which categories spawned. -/
def spawnEnemies (st : SpawnState) (mushrooms : List Mushroom) :
    SpawnState × Bool × Bool × Bool :=
  ((scorpionStep (spiderStep (fleaStep st mushrooms).1).1).1,
   (fleaStep st mushrooms).2,
   (spiderStep (fleaStep st mushrooms).1).2,
   (scorpionStep (spiderStep (fleaStep st mushrooms).1).1).2)

/-- One engine tick as far as spawning is concerned: increment all three
timers by `dt` (as `CentipedeGame.update` does), then `_spawn_enemies`. -/
def gameTick (st : SpawnState) (mushrooms : List Mushroom) (dt : ℚ) :
    SpawnState × Bool × Bool × Bool :=
  spawnEnemies (tickTimers st dt) mushrooms

/-- C8: each tick adds `dt` to every category's timer; a category whose
incremented timer stays below its rate keeps the incremented timer and
does not spawn; a category whose incremented timer reaches its rate
resets the timer to 0, spawning unconditionally for spider and scorpion
and for the flea exactly when fewer than 3 live mushrooms occupy the
player area — the timer resets even when the guard refuses, so no
backlog accumulates; rates are never changed by a tick. -/
theorem spawn_timer_behavior (st : SpawnState) (ms : List Mushroom)
    (dt : ℚ) :
    (¬(st.flea_spawn_timer + dt ≥ st.flea_spawn_rate) →
      (gameTick st ms dt).1.flea_spawn_timer = st.flea_spawn_timer + dt ∧
      (gameTick st ms dt).2.1 = false) ∧
    (st.flea_spawn_timer + dt ≥ st.flea_spawn_rate →
      (gameTick st ms dt).1.flea_spawn_timer = 0 ∧
      ((gameTick st ms dt).2.1 = true ↔ playerAreaMushroomCount ms < 3)) ∧
    (¬(st.spider_spawn_timer + dt ≥ st.spider_spawn_rate) →
      (gameTick st ms dt).1.spider_spawn_timer = st.spider_spawn_timer + dt ∧
      (gameTick st ms dt).2.2.1 = false) ∧
    (st.spider_spawn_timer + dt ≥ st.spider_spawn_rate →
      (gameTick st ms dt).1.spider_spawn_timer = 0 ∧
      (gameTick st ms dt).2.2.1 = true) ∧
    (¬(st.scorpion_spawn_timer + dt ≥ st.scorpion_spawn_rate) →
      (gameTick st ms dt).1.scorpion_spawn_timer = st.scorpion_spawn_timer + dt ∧
      (gameTick st ms dt).2.2.2 = false) ∧
    (st.scorpion_spawn_timer + dt ≥ st.scorpion_spawn_rate →
      (gameTick st ms dt).1.scorpion_spawn_timer = 0 ∧
      (gameTick st ms dt).2.2.2 = true) ∧
    (gameTick st ms dt).1.flea_spawn_rate = st.flea_spawn_rate ∧
    (gameTick st ms dt).1.spider_spawn_rate = st.spider_spawn_rate ∧
    (gameTick st ms dt).1.scorpion_spawn_rate = st.scorpion_spawn_rate := by
  by_cases hf : st.flea_spawn_timer + dt ≥ st.flea_spawn_rate <;>
    by_cases hs : st.spider_spawn_timer + dt ≥ st.spider_spawn_rate <;>
      by_cases hsc : st.scorpion_spawn_timer + dt ≥ st.scorpion_spawn_rate <;>
        simp [gameTick, spawnEnemies, fleaStep, spiderStep, scorpionStep,
          tickTimers, hf, hs, hsc]

theorem spawn_timer_behavior_witness :
    (gameTick ⟨79 / 10, 3, 4, 8, 15, 25⟩
        [{ mkMushroom 100 450 with hits := 1 },
         mkMushroom 200 460, mkMushroom 300 470] (1 / 10)).1.flea_spawn_timer
      = 0 ∧
    ((gameTick ⟨79 / 10, 3, 4, 8, 15, 25⟩
        [{ mkMushroom 100 450 with hits := 1 },
         mkMushroom 200 460, mkMushroom 300 470] (1 / 10)).2.1 = true ↔
      playerAreaMushroomCount
        [{ mkMushroom 100 450 with hits := 1 },
         mkMushroom 200 460, mkMushroom 300 470] < 3) :=
  (spawn_timer_behavior ⟨79 / 10, 3, 4, 8, 15, 25⟩
    [{ mkMushroom 100 450 with hits := 1 },
     mkMushroom 200 460, mkMushroom 300 470] (1 / 10)).2.1 (by norm_num)

end Centipede
